import Mathlib

/-!
Shallow embedding of the YT-Downloader application (src/main.py) and proofs
about its specification.  The program glues two external tools together:
a SetupWorker provisions the yt-dlp and ffmpeg executables, and a
DownloadWorker builds a yt-dlp command line, streams the subprocess output
and extracts a coarse progress percentage from each output line.
This file models those pure decision procedures: the progress extractor,
the command builder, the exit-code handling, the platform-keyed URLs,
the extraction-root resolution, the failure classification, the cleanup
bookkeeping and the action order of a download run.
-/

/-! ### Progress extraction (DownloadWorker.run, src/main.py lines 245-261)

The Python loop reads each output line; when the line contains a percent
sign it splits the line on whitespace, scans for the first token ending in
a percent sign, removes every percent sign from that token, parses the rest
with float when it contains a dot (truncating via int) and with int
otherwise, and emits the result; a ValueError aborts the scan silently so
that no event is emitted and streaming continues. -/

/-- Models Python str.split with no arguments: split on runs of whitespace,
discarding empty pieces.  The accumulator holds the current token reversed. -/
def splitWsAux : List Char → List Char → List (List Char)
  | acc, [] => if acc.isEmpty then [] else [acc.reverse]
  | acc, c :: cs =>
    if c.isWhitespace then
      if acc.isEmpty then splitWsAux [] cs
      else acc.reverse :: splitWsAux [] cs
    else splitWsAux (c :: acc) cs

/-- The whitespace split of a line, as Python line.split() produces it. -/
def pySplitWs (line : String) : List (List Char) := splitWsAux [] line.toList

/-- Models part.endswith of a percent sign for a token coming from split. -/
def endsWithPercent (t : List Char) : Bool := t.getLast? == some '%'

/-- Value of a digit character. -/
def digitVal (c : Char) : Nat := c.toNat - 48

/-- Value of a list of digit characters read in base ten. -/
def digitsVal (l : List Char) : Nat := l.foldl (fun acc c => acc * 10 + digitVal c) 0

/-- Models Python int on a whitespace-free unsigned string: a nonempty
run of digits (the inputs here are tokens already split on whitespace;
underscore separators are not modelled). -/
def parseNatDigits (l : List Char) : Option Nat :=
  if !l.isEmpty && l.all Char.isDigit then some (digitsVal l) else none

/-- Models Python int on a whitespace-free string: an optional sign
followed by digits. -/
def pyIntOfChars : List Char → Option Int
  | '-' :: rest => (parseNatDigits rest).map (fun n => -(n : Int))
  | '+' :: rest => (parseNatDigits rest).map (fun n => (n : Int))
  | l => (parseNatDigits l).map (fun n => (n : Int))

/-- Models int of float of an unsigned decimal string that contains a dot:
integer digits, one dot, fractional digits, with at least one digit in
total; truncation toward zero keeps the integer part.  Exponent, inf and
nan spellings of Python float are not modelled: the tokens this program
feeds it are plain decimals from yt-dlp progress lines. -/
def parseDotNumTrunc (l : List Char) : Option Nat :=
  match l.splitOn '.' with
  | [ip, fp] =>
    if !(ip.isEmpty && fp.isEmpty) && ip.all Char.isDigit && fp.all Char.isDigit then
      some (digitsVal ip)
    else none
  | _ => none

/-- Models int of float on a whitespace-free decimal string with a dot:
optional sign, then the unsigned decimal; int truncates toward zero, so
the result is the sign applied to the integer part. -/
def pyFloatTruncOfChars : List Char → Option Int
  | '-' :: rest => (parseDotNumTrunc rest).map (fun n => -(n : Int))
  | '+' :: rest => (parseDotNumTrunc rest).map (fun n => (n : Int))
  | l => (parseDotNumTrunc l).map (fun n => (n : Int))

/-- Parsing of one token that ends in a percent sign, as the loop body
does: progress_str removes every percent sign; when a dot remains the
token is parsed as a float and truncated with int, otherwise parsed with
int directly; a failure is the ValueError the code silently swallows. -/
def parseProgressToken (t : List Char) : Option Int :=
  let s := t.filter (fun c => c != '%')
  if s.contains '.' then pyFloatTruncOfChars s else pyIntOfChars s

/-- The progress extractor applied to one output line, mirroring the code:
when the line contains a percent sign, split on whitespace, take the first
token ending in a percent sign, and parse it; the try block means a parse
failure on that first token emits nothing (the ValueError skips the rest
of the scan), and a line with no such token emits nothing. -/
def extractProgress (line : String) : Option Int :=
  if '%' ∈ line.toList then
    (List.find? endsWithPercent (pySplitWs line)).bind parseProgressToken
  else none

theorem extractProgress_eq_of_find (line : String) (t : List Char)
    (hmem : '%' ∈ line.toList)
    (hfind : List.find? endsWithPercent (pySplitWs line) = some t) :
    extractProgress line = parseProgressToken t := by
  simp only [extractProgress]
  rw [if_pos hmem, hfind]
  rfl

/-- Claim C1: a line containing a percent sign is split on whitespace, the
first token ending in a percent sign is parsed as a possibly fractional
number and truncated to an integer, and that integer is emitted; the line
containing 12.5 percent of 10MiB yields 12; when no token ends in a
percent sign, or the first such token fails to parse, no progress value is
emitted and streaming continues. -/
theorem progress_extraction_C1 :
    extractProgress "  12.5% of 10MiB" = some 12
    ∧ (∀ line : String, List.find? endsWithPercent (pySplitWs line) = none →
        extractProgress line = none)
    ∧ (∀ (line : String) (t : List Char),
        List.find? endsWithPercent (pySplitWs line) = some t →
        parseProgressToken t = none → extractProgress line = none) := by
  refine ⟨by decide, ?_, ?_⟩
  · intro line hfind
    by_cases hm : '%' ∈ line.toList
    · simp only [extractProgress]
      rw [if_pos hm, hfind]
      rfl
    · simp only [extractProgress]
      rw [if_neg hm]
  · intro line t hfind hparse
    by_cases hm : '%' ∈ line.toList
    · rw [extractProgress_eq_of_find line t hm hfind]
      exact hparse
    · simp only [extractProgress]
      rw [if_neg hm]

theorem progress_extraction_C1_witness :
    extractProgress "no token with a sign here" = none
    ∧ extractProgress "abc% of 10MiB" = none := by
  constructor
  · exact progress_extraction_C1.2.1 "no token with a sign here" (by decide)
  · exact progress_extraction_C1.2.2 "abc% of 10MiB" (String.toList "abc%")
      (by decide) (by decide)

/-- Claim C10: the extracted percentage is emitted exactly as parsed and
truncated, with no clamping to the range from 0 to 100: whenever the first
token ending in a percent sign parses to an out-of-range integer, that
integer is emitted unmodified. -/
theorem progress_no_clamp_C10 (line : String) (t : List Char) (v : Int)
    (hmem : '%' ∈ line.toList)
    (hfind : List.find? endsWithPercent (pySplitWs line) = some t)
    (hparse : parseProgressToken t = some v)
    (_hrange : 100 < v ∨ v < 0) :
    extractProgress line = some v := by
  rw [extractProgress_eq_of_find line t hmem hfind]
  exact hparse

theorem progress_no_clamp_C10_witness :
    extractProgress "[download] 150.5% of 10MiB" = some 150
    ∧ extractProgress "-12.5% retried" = some (-12) := by
  constructor
  · exact progress_no_clamp_C10 "[download] 150.5% of 10MiB"
      (String.toList "150.5%") 150 (by decide) (by decide) (by decide)
      (Or.inl (by decide))
  · exact progress_no_clamp_C10 "-12.5% retried"
      (String.toList "-12.5%") (-12) (by decide) (by decide) (by decide)
      (Or.inr (by decide))

/-! ### Command construction (DownloadWorker.run, src/main.py lines 216-233)

The worker builds the yt-dlp argument list: the executable, the aria2c
external-downloader flags, the ffmpeg location, the output template under
the destination directory, then the format arguments chosen from the
format_choice field, and finally the URL. -/

/-- One user-requested download: URL, destination directory and format
selection, as held by the DownloadWorker. -/
structure DownloadJob where
  url : String
  output_path : String
  format_choice : String

/-- Models os.path.join on the posix separator, as used for the output
template. -/
def pyPathJoin (a b : String) : String := a ++ "/" ++ b

/-- The argument list DownloadWorker.run assembles before spawning the
subprocess, translated clause for clause from the code. -/
def buildCommand (yt_dlp_exec ffmpeg_exec : String) (job : DownloadJob) : List String :=
  ([yt_dlp_exec,
    "--external-downloader", "aria2c",
    "--external-downloader-args", "-x 16 -s 16 -k 1M",
    "--ffmpeg-location", ffmpeg_exec,
    "-o", pyPathJoin job.output_path "%(title)s.%(ext)s"]
   ++ (if job.format_choice = "mp3" then
         ["-x", "--audio-format", "mp3", "--audio-quality", "0"]
       else if job.format_choice = "best" then
         ["-f", "bestvideo[ext=mp4]+bestaudio[ext=m4a]/best[ext=mp4]/best"]
       else
         ["-f", job.format_choice]))
  ++ [job.url]

/-- Claim C2: the audio preset adds the audio-extraction flag with target
codec mp3 and best audio quality; the best-quality preset adds the
documented fallback format selector; any other format string is passed
through unmodified after the format flag. -/
theorem format_selection_C2 (y f : String) (job : DownloadJob) :
    (job.format_choice = "mp3" →
      ∃ s t, buildCommand y f job
        = s ++ ["-x", "--audio-format", "mp3", "--audio-quality", "0"] ++ t)
    ∧ (job.format_choice = "best" →
      ∃ s t, buildCommand y f job
        = s ++ ["-f", "bestvideo[ext=mp4]+bestaudio[ext=m4a]/best[ext=mp4]/best"] ++ t)
    ∧ (job.format_choice ≠ "mp3" → job.format_choice ≠ "best" →
      ∃ s t, buildCommand y f job = s ++ ["-f", job.format_choice] ++ t) := by
  refine ⟨?_, ?_, ?_⟩
  · intro h
    refine ⟨[y, "--external-downloader", "aria2c", "--external-downloader-args",
      "-x 16 -s 16 -k 1M", "--ffmpeg-location", f, "-o",
      pyPathJoin job.output_path "%(title)s.%(ext)s"], [job.url], ?_⟩
    simp [buildCommand, h]
  · intro h
    refine ⟨[y, "--external-downloader", "aria2c", "--external-downloader-args",
      "-x 16 -s 16 -k 1M", "--ffmpeg-location", f, "-o",
      pyPathJoin job.output_path "%(title)s.%(ext)s"], [job.url], ?_⟩
    simp [buildCommand, h]
  · intro h1 h2
    refine ⟨[y, "--external-downloader", "aria2c", "--external-downloader-args",
      "-x 16 -s 16 -k 1M", "--ffmpeg-location", f, "-o",
      pyPathJoin job.output_path "%(title)s.%(ext)s"], [job.url], ?_⟩
    simp [buildCommand, h1, h2]

theorem format_selection_C2_witness :
    (∃ s t, buildCommand "yt-dlp" "ffmpeg" ⟨"u", "downloads", "mp3"⟩
      = s ++ ["-x", "--audio-format", "mp3", "--audio-quality", "0"] ++ t)
    ∧ (∃ s t, buildCommand "yt-dlp" "ffmpeg" ⟨"u", "downloads", "best"⟩
      = s ++ ["-f", "bestvideo[ext=mp4]+bestaudio[ext=m4a]/best[ext=mp4]/best"] ++ t)
    ∧ (∃ s t, buildCommand "yt-dlp" "ffmpeg" ⟨"u", "downloads", "137+140"⟩
      = s ++ ["-f", "137+140"] ++ t) :=
  ⟨(format_selection_C2 "yt-dlp" "ffmpeg" ⟨"u", "downloads", "mp3"⟩).1 rfl,
   (format_selection_C2 "yt-dlp" "ffmpeg" ⟨"u", "downloads", "best"⟩).2.1 rfl,
   (format_selection_C2 "yt-dlp" "ffmpeg" ⟨"u", "downloads", "137+140"⟩).2.2
     (by decide) (by decide)⟩

/-! ### Completion handling (DownloadWorker.run lines 263-271 and
YouTubeDownloaderApp.on_download_finished lines 460-468)

After the output loop the worker waits for the process, then reports
success exactly when returncode is 0, a failure message embedding the
code otherwise, and a fixed not-found message when the spawn raised
FileNotFoundError; the UI handler then sets the progress bar to 100 on
success and 0 on failure. -/

/-- Outcome of attempting to run the subprocess: either it was spawned and
exited with a return code, or the executable could not be located and the
spawn raised FileNotFoundError. -/
inductive ProcLaunch
  | completed (returncode : Int)
  | fileNotFound

/-- The pair emitted on download_finished, as a function of how the spawn
ended: the branch on returncode after process.wait, and the
FileNotFoundError handler. -/
def downloadOutcome : ProcLaunch → Bool × String
  | .completed c =>
    if c = 0 then (true, "Download completed successfully!")
    else (false, "Download failed with error code: " ++ toString c)
  | .fileNotFound =>
    (false, "Error: yt-dlp or ffmpeg executable not found. Ensure paths are correct and executables exist.")

/-- The progress-bar value on_download_finished sets once the worker
reports: 100 on success, 0 on failure. -/
def finishedProgressValue (success : Bool) : Nat := if success then 100 else 0

theorem downloadOutcome_messages_ne (c : Int) :
    "Error: yt-dlp or ffmpeg executable not found. Ensure paths are correct and executables exist."
      ≠ "Download failed with error code: " ++ toString c := by
  intro h
  have h2 := congrArg String.data h
  rw [String.data_append] at h2
  have h3 := congrArg (fun l => l.take 1) h2
  simp only at h3
  rw [List.take_append_of_le_length (by decide)] at h3
  exact absurd h3 (by decide)

/-- Claim C3: the runner waits for the subprocess and reports success
exactly when the exit code is zero; a non-zero exit code yields a failure
whose message embeds that code; a missing executable yields the distinct
not-found failure instead of an unhandled fault; and a successful run has
its progress bar set to 100. -/
theorem completion_C3 (c : Int) :
    ((downloadOutcome (.completed c)).1 = true ↔ c = 0)
    ∧ (c ≠ 0 → (downloadOutcome (.completed c)).1 = false
        ∧ ∃ a b, (downloadOutcome (.completed c)).2 = a ++ toString c ++ b)
    ∧ (downloadOutcome .fileNotFound
        = (false, "Error: yt-dlp or ffmpeg executable not found. Ensure paths are correct and executables exist."))
    ∧ downloadOutcome .fileNotFound ≠ downloadOutcome (.completed c)
    ∧ finishedProgressValue (downloadOutcome (.completed 0)).1 = 100 := by
  refine ⟨?_, ?_, rfl, ?_, rfl⟩
  · constructor
    · intro h
      by_contra hc
      simp [downloadOutcome, hc] at h
    · intro h
      simp [downloadOutcome, h]
  · intro hc
    refine ⟨by simp [downloadOutcome, hc], "Download failed with error code: ", "", ?_⟩
    simp [downloadOutcome, hc]
  · intro h
    by_cases hc : c = 0
    · subst hc
      exact absurd (congrArg Prod.fst h) (by decide)
    · have h2 := congrArg Prod.snd h
      simp only [downloadOutcome, if_neg hc] at h2
      exact downloadOutcome_messages_ne c h2

theorem completion_C3_witness :
    (downloadOutcome (.completed 0)).1 = true
    ∧ ((downloadOutcome (.completed 1)).1 = false
        ∧ ∃ a b, (downloadOutcome (.completed 1)).2 = a ++ toString (1 : Int) ++ b) :=
  ⟨(completion_C3 0).1.mpr rfl, (completion_C3 1).2.1 (by decide)⟩

/-! ### Tool provisioning (SetupWorker.run, src/main.py lines 49-142)

The SetupWorker first resolves the platform-keyed names and URLs of the
two tools, then for each tool either reports that it already exists or
downloads (and for ffmpeg extracts) it, and finally reports overall
success; the exception handlers at the end of run classify failures. -/

/-- The three values of sys.platform the code branches on. -/
inductive Platform
  | win32
  | darwin
  | linux

/-- The downloader release URL chosen per platform (lines 58-62). -/
def yt_dlp_url : Platform → String
  | .win32 => "https://github.com/yt-dlp/yt-dlp/releases/latest/download/yt-dlp.exe"
  | _ => "https://github.com/yt-dlp/yt-dlp/releases/latest/download/yt-dlp"

/-- The downloader file name chosen per platform (lines 58-63). -/
def yt_dlp_filename : Platform → String
  | .win32 => "yt-dlp.exe"
  | _ => "yt-dlp"

/-- The transcoder archive URL chosen per platform (lines 82-91). -/
def ffmpeg_archive_url : Platform → String
  | .win32 => "https://www.gyan.dev/ffmpeg/builds/ffmpeg-release-full.zip"
  | .darwin => "https://evermeet.cx/ffmpeg/ffmpeg-latest.zip"
  | .linux => "https://johnvansickle.com/ffmpeg/releases/ffmpeg-release-amd64-static.tar.xz"

/-- The transcoder archive file name chosen per platform (lines 82-92). -/
def ffmpeg_archive_filename : Platform → String
  | .win32 => "ffmpeg-release-full.zip"
  | .darwin => "ffmpeg-latest.zip"
  | .linux => "ffmpeg-release-amd64-static.tar.xz"

/-- Models Python str.endswith on whole strings. -/
def pyEndsWith (s suffix : String) : Bool := List.isSuffixOf suffix.data s.data

/-- The archive formats the extractor distinguishes. -/
inductive ArchiveKind
  | zip
  | tarxz
  | unsupported
deriving DecidableEq

/-- The dispatch of extract_to_temp_dir on the archive path suffix
(lines 172-179): zip, tar.xz, or the unsupported-format ValueError. -/
def archiveKindOf (path : String) : ArchiveKind :=
  if pyEndsWith path ".zip" then .zip
  else if pyEndsWith path ".tar.xz" then .tarxz
  else .unsupported

/-- Claim C6: each platform selects the documented fixed URLs, the
platform-appropriate downloader binary name with the exe suffix on
Windows, and a zip transcoder archive on Windows and macOS against a
tar-xz archive on Linux. -/
theorem platform_selection_C6 :
    yt_dlp_url .win32 = "https://github.com/yt-dlp/yt-dlp/releases/latest/download/yt-dlp.exe"
    ∧ yt_dlp_filename .win32 = "yt-dlp.exe"
    ∧ pyEndsWith (yt_dlp_filename .win32) ".exe" = true
    ∧ yt_dlp_url .darwin = "https://github.com/yt-dlp/yt-dlp/releases/latest/download/yt-dlp"
    ∧ yt_dlp_filename .darwin = "yt-dlp"
    ∧ yt_dlp_url .linux = "https://github.com/yt-dlp/yt-dlp/releases/latest/download/yt-dlp"
    ∧ yt_dlp_filename .linux = "yt-dlp"
    ∧ ffmpeg_archive_url .win32 = "https://www.gyan.dev/ffmpeg/builds/ffmpeg-release-full.zip"
    ∧ archiveKindOf (ffmpeg_archive_filename .win32) = .zip
    ∧ ffmpeg_archive_url .darwin = "https://evermeet.cx/ffmpeg/ffmpeg-latest.zip"
    ∧ archiveKindOf (ffmpeg_archive_filename .darwin) = .zip
    ∧ ffmpeg_archive_url .linux = "https://johnvansickle.com/ffmpeg/releases/ffmpeg-release-amd64-static.tar.xz"
    ∧ archiveKindOf (ffmpeg_archive_filename .linux) = .tarxz := by
  refine ⟨rfl, rfl, by decide, rfl, rfl, rfl, rfl, rfl, by decide, rfl, by decide, rfl, by decide⟩

/-! ### Idempotent provisioning trace (lines 67-74 and 97-135) -/

/-- Presence of the three tool files at their resolved paths in the tools
directory when the SetupWorker starts. -/
structure ToolsFS where
  yt_dlp_exists : Bool
  ffmpeg_exists : Bool
  ffprobe_exists : Bool

/-- Observable events of a provisioning run: status lines, HTTP fetches
and progress-bar updates. -/
inductive SetupEvent
  | status (msg : String)
  | httpGet (url : String)
  | progressBar (value : Int) (text : String)
deriving DecidableEq

/-- Whether an event is a network request. -/
def isHttpGet : SetupEvent → Bool
  | .httpGet _ => true
  | _ => false

/-- The observable effects of download_file (lines 144-163): one HTTP GET
of the URL, then the final progress-bar update (the per-chunk updates in
between depend on the response size and are not modelled). -/
def downloadFileEvents (url tool_name : String) : List SetupEvent :=
  [.httpGet url, .progressBar 100 ("Downloading " ++ tool_name ++ ": 100%")]

/-- The event trace of a SetupWorker run on which every fetch and the
extraction succeed, as a function of platform and of which tool files
already exist; failures are classified separately by setupFailureReport.
Mirrors the two branches at lines 67-74 and 97-133. -/
def setupRunEvents (p : Platform) (fs : ToolsFS) : List SetupEvent :=
  (if fs.yt_dlp_exists then
     [.status (yt_dlp_filename p ++ " already exists.")]
   else
     [.status ("Downloading " ++ yt_dlp_filename p ++ "...")]
     ++ downloadFileEvents (yt_dlp_url p) "yt-dlp"
     ++ [.status (yt_dlp_filename p ++ " downloaded.")])
  ++
  (if fs.ffmpeg_exists && fs.ffprobe_exists then
     [.status "ffmpeg and ffprobe already exist."]
   else
     [.status ("Downloading " ++ ffmpeg_archive_filename p ++ "...")]
     ++ downloadFileEvents (ffmpeg_archive_url p) "FFmpeg"
     ++ [.status ("Extracting " ++ ffmpeg_archive_filename p ++ "..."),
         .status "ffmpeg and ffprobe extracted and moved.",
         .status "Cleaned up temporary extraction directory: ffmpeg_temp_extract.",
         .status ("Cleaned up " ++ ffmpeg_archive_filename p ++ ".")])

/-- The setup_finished payload of a run that raises no exception
(line 135). -/
def setupRunResult : Bool × String := (true, "Tool setup completed successfully!")

/-- Claim C4: when the downloader and both transcoder-pair files already
exist, a provisioning run performs zero network requests, reports an
already-exists status for each tool, and terminates with the success
outcome. -/
theorem setup_idempotent_C4 (p : Platform) :
    (setupRunEvents p ⟨true, true, true⟩).filter isHttpGet = []
    ∧ SetupEvent.status (yt_dlp_filename p ++ " already exists.")
        ∈ setupRunEvents p ⟨true, true, true⟩
    ∧ SetupEvent.status "ffmpeg and ffprobe already exist."
        ∈ setupRunEvents p ⟨true, true, true⟩
    ∧ setupRunResult = (true, "Tool setup completed successfully!") := by
  cases p <;> exact ⟨rfl, by decide, by decide, rfl⟩

/-! ### Extraction root resolution (SetupWorker extract_to_temp_dir,
src/main.py lines 181-186)

After extraction the code lists the temporary directory; when that listing
is a single entry and the entry is a directory, the returned root is that
subdirectory, otherwise the temporary directory itself. -/

/-- One directory entry as os.listdir plus os.path.isdir observe it:
a name and whether it is a directory. -/
structure DirEntry where
  name : String
  is_dir : Bool

/-- The root-resolution step translated from lines 183-186. -/
def resolveExtractedRoot (temp_extract_path : String) (entries : List DirEntry) : String :=
  match entries with
  | [e] => if e.is_dir then pyPathJoin temp_extract_path e.name else temp_extract_path
  | _ => temp_extract_path

/-- Claim C5: a single-subdirectory layout resolves to that subdirectory;
a flat layout, a single plain file, or several entries resolve to the
extraction directory itself. -/
theorem extraction_root_C5 (temp : String) (nm : String) (e1 e2 : DirEntry)
    (rest : List DirEntry) :
    resolveExtractedRoot temp [⟨nm, true⟩] = pyPathJoin temp nm
    ∧ resolveExtractedRoot temp [⟨nm, false⟩] = temp
    ∧ resolveExtractedRoot temp [] = temp
    ∧ resolveExtractedRoot temp (e1 :: e2 :: rest) = temp :=
  ⟨rfl, rfl, rfl, rfl⟩

/-! ### Failure classification (SetupWorker.run, lines 113-114 and 137-142)

Every exception escaping the body of run reaches one of three handlers:
requests.RequestException, the archive errors BadZipFile and ReadError,
and the generic Exception handler; each emits setup_finished with False
and a class-specific message.  The missing-executables case raises a
generic Exception whose message lists the searched locations. -/

/-- The exception classes the handlers at lines 137-142 distinguish. -/
inductive SetupExc
  | requestException (msg : String)
  | badZipFile (msg : String)
  | tarReadError (msg : String)
  | otherException (msg : String)

/-- The setup_finished payload each handler emits. -/
def setupFailureReport : SetupExc → Bool × String
  | .requestException m => (false, "Network error during tool download: " ++ m)
  | .badZipFile m =>
    (false, "Archive extraction error: " ++ m ++ ". The downloaded file might be corrupted.")
  | .tarReadError m =>
    (false, "Archive extraction error: " ++ m ++ ". The downloaded file might be corrupted.")
  | .otherException m => (false, "An error occurred during tool setup: " ++ m)

/-- Python repr of a string, as an f-string renders a list element. -/
def pyStrRepr (s : String) : String := "\x27" ++ s ++ "\x27"

/-- Python repr of a list of strings, as the f-string at line 114 renders
search_paths_for_exec. -/
def pyListRepr (l : List String) : String :=
  "[" ++ String.intercalate ", " (l.map pyStrRepr) ++ "]"

/-- The message of the Exception raised at line 114 when the executables
are missing after extraction, naming the searched locations. -/
def missingExecMsg (search_paths : List String) : String :=
  "FFmpeg or FFprobe executables not found after extraction in "
    ++ pyListRepr search_paths ++ ". Please check the archive content."

/-- Claim C7: a network failure is reported as a network error, a corrupt
archive as an extraction error, and missing executables after extraction
as a generic setup error whose message names the searched locations;
every classified failure terminates the task with a failure payload
rather than an unhandled exception. -/
theorem setup_failures_C7 (m : String) (paths : List String) (e : SetupExc) :
    setupFailureReport (.requestException m)
      = (false, "Network error during tool download: " ++ m)
    ∧ setupFailureReport (.badZipFile m)
      = (false, "Archive extraction error: " ++ m ++ ". The downloaded file might be corrupted.")
    ∧ setupFailureReport (.tarReadError m)
      = (false, "Archive extraction error: " ++ m ++ ". The downloaded file might be corrupted.")
    ∧ setupFailureReport (.otherException (missingExecMsg paths))
      = (false, "An error occurred during tool setup: " ++ missingExecMsg paths)
    ∧ (∃ a b, (setupFailureReport (.otherException (missingExecMsg paths))).2.data
        = a ++ (pyListRepr paths).data ++ b)
    ∧ (setupFailureReport e).1 = false := by
  refine ⟨rfl, rfl, rfl, rfl, ?_, ?_⟩
  · refine ⟨("An error occurred during tool setup: ").data
      ++ ("FFmpeg or FFprobe executables not found after extraction in ").data,
      (". Please check the archive content.").data, ?_⟩
    simp [setupFailureReport, missingExecMsg, String.data_append, List.append_assoc]
  · cases e <;> rfl

/-! ### Cleanup bookkeeping (extract_to_temp_dir lines 168-170 and run
lines 126-131)

extract_to_temp_dir begins by removing the scratch directory when it is
present from a prior run and recreating it empty, before it even opens
the archive; the downloaded archive file is removed only at line 130,
after the executables were located and moved, so any exception raised
between the download and that line leaves the archive on disk. -/

/-- The disk state the ffmpeg branch manipulates: whether the downloaded
archive file exists, whether the scratch extraction directory exists, and
whether the scratch directory still holds contents from a prior run. -/
structure ProvFS where
  archive_exists : Bool
  extract_dir_exists : Bool
  extract_dir_stale : Bool

/-- The unconditional reset at the start of extract_to_temp_dir (lines
168-170): a stale scratch directory is removed and a fresh one created,
before the archive is read. -/
def extractResetFS (fs : ProvFS) : ProvFS :=
  { fs with extract_dir_exists := true, extract_dir_stale := false }

/-- Where the ffmpeg-install branch stops: it runs to the end, or an
exception interrupts it while reading the archive (BadZipFile or
ReadError), or while locating the executables (the Exception of
line 114). -/
inductive InstallStop
  | ok
  | failExtract
  | failLocate

/-- The disk state after the ffmpeg-install branch (lines 98-131) as a
function of where it stops: the download writes the archive, extraction
resets the scratch directory, and only the complete run removes both the
scratch directory (line 128) and the archive (line 130). -/
def ffmpegInstallFS (fs : ProvFS) (stop_at : InstallStop) : ProvFS :=
  let after_download := { fs with archive_exists := true }
  let after_reset := extractResetFS after_download
  match stop_at with
  | .failExtract => after_reset
  | .failLocate => after_reset
  | .ok => { archive_exists := false, extract_dir_exists := false, extract_dir_stale := false }

/-- Claim C8: the scratch extraction directory is reset unconditionally at
the start of extraction whatever its prior state, while the archive file
is removed only on the success path: a failure during extraction or
location leaves the archive on disk. -/
theorem cleanup_asymmetry_C8 (fs : ProvFS) :
    (extractResetFS fs).extract_dir_stale = false
    ∧ (ffmpegInstallFS fs .failExtract).archive_exists = true
    ∧ (ffmpegInstallFS fs .failExtract).extract_dir_stale = false
    ∧ (ffmpegInstallFS fs .failLocate).archive_exists = true
    ∧ (ffmpegInstallFS fs .failLocate).extract_dir_stale = false
    ∧ (ffmpegInstallFS fs .ok).archive_exists = false
    ∧ (ffmpegInstallFS fs .ok).extract_dir_exists = false :=
  ⟨rfl, rfl, rfl, rfl, rfl, rfl, rfl⟩

/-! ### Action order of a download run (start_download lines 425-458 and
DownloadWorker.run lines 207-243)

start_download creates the destination directory when it is absent and
only then starts the worker, which emits two status lines and the initial
progress-bar update and spawns the subprocess; the worker itself performs
no media write, the media files are written by the spawned tool. -/

/-- The side-effecting actions a download run performs, in order.  The
writeMediaFile constructor exists to state its absence: only the spawned
external tool writes media. -/
inductive RunnerAction
  | makeDirectory (path : String)
  | emitStatus (text : String)
  | emitProgressBar (value : Int) (text : String)
  | spawnProcess (cmd : List String)
  | writeMediaFile (path : String)

/-- Whether an action writes media data. -/
def writesMedia : RunnerAction → Bool
  | .writeMediaFile _ => true
  | _ => false

/-- The actions of DownloadWorker.run up to and including the spawn
(lines 211-243). -/
def downloadWorkerActions (y f : String) (job : DownloadJob) : List RunnerAction :=
  [.emitStatus ("Starting download from: " ++ job.url ++ "\n"),
   .emitStatus ("Saving to: " ++ job.output_path ++ "\n"),
   .emitProgressBar 0 "Downloading...",
   .spawnProcess (buildCommand y f job)]

/-- The actions of start_download followed by the worker it starts: the
destination directory is created first when absent (lines 438-441),
before the worker runs. -/
def startDownloadActions (output_dir_exists : Bool) (y f : String)
    (job : DownloadJob) : List RunnerAction :=
  (if output_dir_exists then [] else [.makeDirectory job.output_path])
  ++ downloadWorkerActions y f job

/-- Claim C9: when the destination directory is absent it is created as
the first action, before the subprocess spawn through which the external
tool writes media; and no action of the run itself writes media data. -/
theorem dest_dir_C9 (output_dir_exists : Bool) (y f : String) (job : DownloadJob) :
    (startDownloadActions output_dir_exists y f job).filter writesMedia = []
    ∧ (output_dir_exists = false →
        ∃ i j, i < j
        ∧ (startDownloadActions output_dir_exists y f job).get? i
            = some (.makeDirectory job.output_path)
        ∧ (startDownloadActions output_dir_exists y f job).get? j
            = some (.spawnProcess (buildCommand y f job))) := by
  constructor
  · cases output_dir_exists <;> rfl
  · intro h
    subst h
    exact ⟨0, 4, by decide, rfl, rfl⟩

theorem dest_dir_C9_witness :
    (startDownloadActions false "yt-dlp" "ffmpeg" ⟨"u", "downloads", "best"⟩).filter writesMedia = []
    ∧ ∃ i j, i < j
    ∧ (startDownloadActions false "yt-dlp" "ffmpeg" ⟨"u", "downloads", "best"⟩).get? i
        = some (.makeDirectory "downloads")
    ∧ (startDownloadActions false "yt-dlp" "ffmpeg" ⟨"u", "downloads", "best"⟩).get? j
        = some (.spawnProcess (buildCommand "yt-dlp" "ffmpeg" ⟨"u", "downloads", "best"⟩)) :=
  ⟨(dest_dir_C9 false "yt-dlp" "ffmpeg" ⟨"u", "downloads", "best"⟩).1,
   (dest_dir_C9 false "yt-dlp" "ffmpeg" ⟨"u", "downloads", "best"⟩).2 rfl⟩
